import Mathlib

/-!
Verification of the exam-evaluation frontend (exam creation/edit wizard,
zod form schemas, RTK Query api endpoints, and the submission page).

Conventions of the shallow embedding:
* JavaScript numbers that can be `NaN` are modelled as `Option Int`
  (`none` = NaN).  The claims under study only involve integer-valued
  marks and ids, so finite non-integer floats are outside the model.
* zod validation is modelled as a function producing the list of issues
  (`FieldError`, carrying the zod `path` and `message`); a parse succeeds
  exactly when that list is empty, in which case the transformed output
  value is returned.
* React state updates (`setStep`, `setMessage`, ...) are modelled as pure
  functions on explicit state records; network effects are modelled as a
  list of emitted `Request` values.
-/

namespace ExamAI

/-- Accumulating decimal-digit parser used by the `Number` model. -/
def digitsAcc : List Char → Nat → Option Nat
  | [], acc => some acc
  | c :: cs, acc =>
    if c.isDigit then digitsAcc cs (acc * 10 + (c.toNat - 48)) else none

/-- Nonempty decimal digit strings and their value. -/
def digitsToNat? : List Char → Option Nat
  | [] => none
  | cs => digitsAcc cs 0

/-- JavaScript `Number` on a whitespace-trimmed character list:
the empty string coerces to `0`, optionally negated digit strings to
their value, everything else to `none` (NaN). -/
def jsCharsToNumber : List Char → Option Int
  | [] => some 0
  | '-' :: cs => (digitsToNat? cs).map fun n => -(n : Int)
  | cs => (digitsToNat? cs).map fun n => (n : Int)

/-- JavaScript `Number(s)` coercion on strings, restricted to the
integer-valued fragment: the trimmed empty string coerces to `0`,
(optionally negated) decimal digit strings coerce to their value, and
everything else yields `none`, which models `NaN` (finite non-integer
values are outside the model; none of the claims involve them). -/
def jsStringToNumber (s : String) : Option Int :=
  jsCharsToNumber
    (s.toList.dropWhile Char.isWhitespace |>.reverse.dropWhile Char.isWhitespace |>.reverse)

/-- The value held by the `mark` field of a raw (pre-validation) form
question.  The form input can hold a string (user typed text) or a
number (pre-populated from an `Exam`); `nan` models a pre-populated
JavaScript `NaN`. -/
inductive MarkValue where
  | str (s : String)
  | num (n : Int)
  | nan
  deriving Repr, DecidableEq

/-- JavaScript `Number(val)` on a `mark` form value (`none` = NaN). -/
def MarkValue.toNumber : MarkValue → Option Int
  | .str s => jsStringToNumber s
  | .num n => some n
  | .nan => none

/-- A zod validation issue: the `path` to the offending field and the
configured `message`. -/
structure FieldError where
  path : List String
  message : String
  deriving Repr, DecidableEq

/-- A raw (pre-validation) question as held by the form state.  The
creation schema has no `id` key (and zod strips unknown keys), so the
creation-side validation ignores `id`; the edit schema declares
`id: z.number().optional()`. -/
structure RawQuestion where
  id : Option Nat
  text : String
  ideal_answer : String
  instructions : Option String
  mark : MarkValue
  deriving Repr, DecidableEq

/-- Raw (pre-validation) values of the whole exam form. -/
structure RawExamForm where
  title : String
  subject : String
  instructions : String
  questions : List RawQuestion
  deriving Repr, DecidableEq

/-- A parsed question as produced by the form schemas (and as sent in the
create/update payload): `mark` has been coerced with `Number` (`none` =
NaN). -/
structure FormQuestion where
  id : Option Nat
  text : String
  ideal_answer : String
  instructions : Option String
  mark : Option Int
  deriving Repr, DecidableEq

/-- `ExamData` from `src/lib/types.ts`: the body of a create/update
request. -/
structure ExamData where
  title : String
  subject : String
  instructions : String
  questions : List FormQuestion
  deriving Repr, DecidableEq

/-- `Question` from `src/lib/types.ts` (backend shape; `id` and the
timestamps are optional there). -/
structure Question where
  id : Option Nat
  text : String
  ideal_answer : String
  instructions : Option String
  mark : Option Int
  created_at : Option String
  updated_at : Option String
  deriving Repr, DecidableEq

/-- `Exam` from `src/lib/types.ts` (backend shape). -/
structure Exam where
  id : Nat
  title : String
  subject : String
  instructions : String
  questions : List Question
  created_at : String
  updated_at : String
  deriving Repr, DecidableEq

/-- `z.string().min(1, msg)` at `path`: empty strings produce the issue. -/
def validateNonempty (s : String) (path : List String) (msg : String) :
    List FieldError :=
  if 1 ≤ s.length then [] else [⟨path, msg⟩]

/-- The issues contributed by the `mark` field of question `i` under the
creation schema's refinement `!isNaN(Number(val)) && Number(val) >= 1`. -/
def createMarkErrors (i : Nat) (m : MarkValue) : List FieldError :=
  match m.toNumber with
  | none => [⟨["questions", toString i, "mark"], "Mark must be a number and at least 1"⟩]
  | some n =>
    if 1 ≤ n then []
    else [⟨["questions", toString i, "mark"], "Mark must be a number and at least 1"⟩]

/-- Issues of question `i` under the creation schema (`examFormSchema` in
`ExamCreation`): nonempty `text`, nonempty `ideal_answer`, optional
`instructions`, refined `mark`. -/
def createQuestionErrors (i : Nat) (q : RawQuestion) : List FieldError :=
  validateNonempty q.text ["questions", toString i, "text"] "Question text is required"
    ++ validateNonempty q.ideal_answer ["questions", toString i, "ideal_answer"]
        "Ideal answer is required"
    ++ createMarkErrors i q.mark

/-- Issues of question `i` under the edit schema (`examFormSchema` in
`ExamEditForm`): same as creation except `id` is an optional number and
`mark` is only `z.any().transform(val => Number(val))` — no refinement. -/
def editQuestionErrors (i : Nat) (q : RawQuestion) : List FieldError :=
  validateNonempty q.text ["questions", toString i, "text"] "Question text is required"
    ++ validateNonempty q.ideal_answer ["questions", toString i, "ideal_answer"]
        "Ideal answer is required"

/-- Issues of the questions of a form, elementwise, starting at index
`i`. -/
def questionListErrors (validate : Nat → RawQuestion → List FieldError) :
    Nat → List RawQuestion → List FieldError
  | _, [] => []
  | i, q :: qs => validate i q ++ questionListErrors validate (i + 1) qs

/-- The `.min(1, "You must add at least one question.")` issue on the
`questions` array. -/
def questionsMinError : FieldError :=
  ⟨["questions"], "You must add at least one question."⟩

/-- Issues of the `questions` array under either schema: the array
`.min(1)` check followed by the elementwise issues. -/
def questionsArrayErrors (validate : Nat → RawQuestion → List FieldError)
    (qs : List RawQuestion) : List FieldError :=
  (if 1 ≤ qs.length then [] else [questionsMinError])
    ++ questionListErrors validate 0 qs

/-- Issues of the three scalar fields `title`, `subject`,
`instructions`; this is also exactly what
`trigger(["title", "subject", "instructions"])` validates at step 1. -/
def detailsErrors (f : RawExamForm) : List FieldError :=
  validateNonempty f.title ["title"] "Title is required"
    ++ validateNonempty f.subject ["subject"] "Subject is required"
    ++ validateNonempty f.instructions ["instructions"] "Instructions are required"

/-- All issues of the creation schema `examFormSchema`
(`ExamCreation`). -/
def examFormSchemaErrors (f : RawExamForm) : List FieldError :=
  detailsErrors f ++ questionsArrayErrors createQuestionErrors f.questions

/-- All issues of the edit schema `examFormSchema` (`ExamEditForm`). -/
def editFormSchemaErrors (f : RawExamForm) : List FieldError :=
  detailsErrors f ++ questionsArrayErrors editQuestionErrors f.questions

/-- The transformed output of the creation schema on a question: unknown
key `id` is stripped, `mark` is coerced with `Number`. -/
def createQuestionParse (q : RawQuestion) : FormQuestion :=
  ⟨none, q.text, q.ideal_answer, q.instructions, q.mark.toNumber⟩

/-- The transformed output of the edit schema on a question: `id` passes
through, `mark` is coerced with `Number`. -/
def editQuestionParse (q : RawQuestion) : FormQuestion :=
  ⟨q.id, q.text, q.ideal_answer, q.instructions, q.mark.toNumber⟩

/-- Parsing a whole form with the creation schema: the issue list when
validation fails, the transformed `ExamData` when it succeeds. -/
def examFormSchemaParse (f : RawExamForm) : Except (List FieldError) ExamData :=
  match examFormSchemaErrors f with
  | [] => .ok ⟨f.title, f.subject, f.instructions, f.questions.map createQuestionParse⟩
  | errs => .error errs

/-- Parsing a whole form with the edit schema. -/
def editFormSchemaParse (f : RawExamForm) : Except (List FieldError) ExamData :=
  match editFormSchemaErrors f with
  | [] => .ok ⟨f.title, f.subject, f.instructions, f.questions.map editQuestionParse⟩
  | errs => .error errs

/-! ## The creation wizard (`ExamCreation`, schema-driven component) -/

/-- State of the exam-creation wizard: the `step` `useState`, the current
form values, the surfaced react-hook-form field errors, and whether a
successful submission has happened. -/
structure WizardState where
  step : Nat
  form : RawExamForm
  errors : List FieldError
  submitted : Bool
  deriving Repr, DecidableEq

/-- The `defaultValues` passed to `useForm` in `ExamCreation`, with the
initial `useState(1)` step. -/
def initialWizardState : WizardState :=
  { step := 1
    form := { title := "", subject := "", instructions := ""
              questions := [{ id := none, text := "", ideal_answer := ""
                              instructions := some "", mark := .num 10 }] }
    errors := []
    submitted := false }

/-- The issues `handleNext` triggers: at step 1 it validates only
`["title", "subject", "instructions"]`, otherwise `trigger(undefined)`
validates the whole schema. -/
def handleNextErrors (s : WizardState) : List FieldError :=
  if s.step = 1 then detailsErrors s.form else examFormSchemaErrors s.form

/-- `handleNext`: trigger validation; on success `setStep(s => s + 1)`,
on failure surface the field errors and stay. -/
def handleNext (s : WizardState) : WizardState :=
  if handleNextErrors s = [] then { s with step := s.step + 1, errors := [] }
  else { s with errors := handleNextErrors s }

/-- `handleBack`: `setStep(s => s - 1)` unconditionally. -/
def handleBack (s : WizardState) : WizardState :=
  { s with step := s.step - 1 }

/-- Submitting the form (`handleSubmit(onSubmit)`): full-schema
validation; on success the exam is created and the session completes, on
failure the errors are surfaced and the user stays on the review step. -/
def submitForm (s : WizardState) : WizardState :=
  if examFormSchemaErrors s.form = [] then { s with errors := [], submitted := true }
  else { s with errors := examFormSchemaErrors s.form }

/-- The `remove(index)` operation of the `useFieldArray` manager: delete
by position, with no lower bound on the resulting length. -/
def removeQuestion (i : Nat) (qs : List RawQuestion) : List RawQuestion :=
  qs.eraseIdx i

/-- The user-invokable transitions of the wizard, guarded by which
buttons are rendered: `Next` only while `step < 3`, `Back` only while
`step > 1`, and the submit button only at `step = 3`. -/
inductive WStep : WizardState → WizardState → Prop where
  | next : ∀ s, s.step < 3 → WStep s (handleNext s)
  | back : ∀ s, 1 < s.step → WStep s (handleBack s)
  | submit : ∀ s, s.step = 3 → WStep s (submitForm s)

/-- States reachable from the wizard's initial state. -/
def WReachable (s : WizardState) : Prop :=
  Relation.ReflTransGen WStep initialWizardState s

/-! ## RTK Query endpoints: cache tags and requests -/

/-- The `id` of a full cache tag: a numeric exam id or the sentinel
`'LIST'`. -/
inductive TagId where
  | num (n : Nat)
  | list
  deriving Repr, DecidableEq

/-- A provided cache tag `{ type, id }`. -/
structure FullTag where
  tagType : String
  id : TagId
  deriving Repr, DecidableEq

/-- A declared invalidation entry: either a bare tag-type string (such as
`'Exam'`) or a full `{ type, id }` tag. -/
inductive TagDescription where
  | plain (t : String)
  | full (tag : FullTag)
  deriving Repr, DecidableEq

/-- RTK Query's tag matching (library behaviour, not code of this
repository): a declared invalidation entry invalidates a provided tag
when the types agree and, for a full entry, the ids agree as well; a
bare type string invalidates every tag of that type. -/
def tagMatches : TagDescription → FullTag → Bool
  | .plain t, f => t == f.tagType
  | .full d, f => d.tagType == f.tagType && d.id == f.id

/-- A query result holding an invalidated tag refetches: true when some
declared invalidation entry matches some provided tag. -/
def wouldRefetch (invalidated : List TagDescription)
    (provided : List FullTag) : Bool :=
  provided.any fun t => invalidated.any fun d => tagMatches d t

/-- The list-cache tag `{ type: 'Exam', id: 'LIST' }`. -/
def examListTag : FullTag := ⟨"Exam", .list⟩

/-- `createExam`'s `invalidatesTags: ['Exam']`. -/
def createExam_invalidatesTags : List TagDescription := [.plain "Exam"]

/-- `updateExam`'s `invalidatesTags`: the specific exam tag and the list
tag. -/
def updateExam_invalidatesTags (id : Nat) : List TagDescription :=
  [.full ⟨"Exam", .num id⟩, .full examListTag]

/-- `deleteExam`'s `invalidatesTags`: only the list tag. -/
def deleteExam_invalidatesTags (_id : Nat) : List TagDescription :=
  [.full examListTag]

/-- `getExams`'s `providesTags`: one tag per returned exam plus the list
tag; just the list tag when there is no result. -/
def getExams_providesTags (result : Option (List Exam)) : List FullTag :=
  match result with
  | some exams => exams.map (fun e => ⟨"Exam", .num e.id⟩) ++ [examListTag]
  | none => [examListTag]

/-- `getExamById`'s `providesTags`: the single tag of the requested
id. -/
def getExamById_providesTags (id : Nat) : List FullTag := [⟨"Exam", .num id⟩]

/-- An HTTP request issued through the api client. -/
structure Request where
  url : String
  method : String
  deriving Repr, DecidableEq

/-- The request built by `getExamById`. -/
def getExamById_request (id : Int) : Request :=
  ⟨"/core/exams/" ++ toString id ++ "/", "GET"⟩

/-- The request built by `uploadPdf` (`POST /core/upload/`). -/
def uploadPdf_request : Request := ⟨"/core/upload/", "POST"⟩

/-- The update payload: the route id and the `ExamData` body of the
`PUT /core/exams/{id}/` request built by `updateExam`. -/
structure UpdatePayload where
  id : Nat
  examData : ExamData
  deriving Repr, DecidableEq

/-! ## The edit form (`ExamEditForm`) and its round trip -/

/-- `defaultValues` of the edit form: the fetched exam's fields; each
question's numeric `mark` enters the form as a number value. -/
def markValueOfJs : Option Int → MarkValue
  | some n => .num n
  | none => .nan

/-- A fetched backend question loaded into the form state (the
timestamps are not form fields and are stripped by the schema's parse
anyway). -/
def questionToRaw (q : Question) : RawQuestion :=
  ⟨q.id, q.text, q.ideal_answer, q.instructions, markValueOfJs q.mark⟩

/-- The raw form values the edit form is pre-populated with from a
fetched exam. -/
def examToRawForm (e : Exam) : RawExamForm :=
  ⟨e.title, e.subject, e.instructions, e.questions.map questionToRaw⟩

/-- The five payload-relevant fields of a backend question, as they
appear inside an update body. -/
def questionToForm (q : Question) : FormQuestion :=
  ⟨q.id, q.text, q.ideal_answer, q.instructions, q.mark⟩

/-- Submitting the edit form with the fetched exam unmodified: validate
the pre-populated values with the edit schema; on success `updateExam`
is called with `{ id: exam.id, examData: data }`. -/
def examEditSubmit (e : Exam) : Option UpdatePayload :=
  match editFormSchemaParse (examToRawForm e) with
  | .ok d => some ⟨e.id, d⟩
  | .error _ => none

/-! ## The submission page (`src/app/submisson/page.tsx`) -/

/-- A browser `File`: its name and MIME type. -/
structure JFile where
  name : String
  type : String
  deriving Repr, DecidableEq

/-- A message shown on the submission page. -/
structure Msg where
  kind : String
  text : String
  deriving Repr, DecidableEq

/-- Local state of the submission page. -/
structure SubmissionState where
  selectedFile : Option JFile
  message : Option Msg
  deriving Repr, DecidableEq

/-- The `setTimeout` callback scheduled by `handleSubmit`: after
`delayMs` it sets the success message and clears the selection. -/
structure DelayedAction where
  delayMs : Nat
  message : Msg
  clearsSelection : Bool
  deriving Repr, DecidableEq

/-- Running a scheduled callback against the page state. -/
def runDelayed (a : DelayedAction) (s : SubmissionState) : SubmissionState :=
  { s with message := some a.message
           selectedFile := if a.clearsSelection then none else s.selectedFile }

/-- `handleFileProcessing`: accept a PDF and announce it; otherwise
clear the selection and show the error.  The second component is the
list of network requests the handler issues — none. -/
def handleFileProcessing (file : Option JFile) (s : SubmissionState) :
    SubmissionState × List Request :=
  match file with
  | some f =>
    if f.type = "application/pdf" then
      ({ s with selectedFile := some f
                message := some ⟨"success", "\"" ++ f.name ++ "\" is ready for upload."⟩ }, [])
    else
      ({ s with selectedFile := none
                message := some ⟨"error", "Please upload a PDF file."⟩ }, [])
  | none =>
    ({ s with selectedFile := none
              message := some ⟨"error", "Please upload a PDF file."⟩ }, [])

/-- `handleSubmit`: with a selected file it sets the placeholder info
message and schedules a 2000 ms callback that reports success and clears
the selection; with none it sets an error message.  The middle component
is the list of network requests issued — none on either path. -/
def handleSubmit (s : SubmissionState) :
    SubmissionState × List Request × Option DelayedAction :=
  match s.selectedFile with
  | some f =>
    ({ s with message := some ⟨"info",
        "Uploading \"" ++ f.name ++ "\"... (This is a placeholder action)"⟩ },
     [],
     some ⟨2000, ⟨"success", "\"" ++ f.name ++ "\" has been uploaded successfully."⟩, true⟩)
  | none =>
    ({ s with message := some ⟨"error", "Please select a PDF file to submit."⟩ },
     [], none)

/-! ## The detail and edit pages' skip logic -/

/-- JavaScript truthiness of a number (`none` = NaN): `NaN` and `0` are
falsy. -/
def numberTruthy : Option Int → Bool
  | none => false
  | some n => n ≠ 0

/-- `ExamDetailPage`: `id = Number(params.id)`; the query runs with
`skip: !id`, so it is issued exactly when `id` is truthy. -/
def examDetailPage_query (paramId : String) : Option Request :=
  match jsStringToNumber paramId with
  | some n => if n ≠ 0 then some (getExamById_request n) else none
  | none => none

/-- `EditExamPage`: `examId = Number(params.id)` with the same
`skip: !examId` guard. -/
def editExamPage_query (paramId : String) : Option Request :=
  match jsStringToNumber paramId with
  | some n => if n ≠ 0 then some (getExamById_request n) else none
  | none => none

/-! ## Theorems -/

lemma handleNext_of_invalid {s : WizardState} (h : handleNextErrors s ≠ []) :
    handleNext s = { s with errors := handleNextErrors s } := by
  simp [handleNext, h]

lemma handleNext_step (s : WizardState) :
    (handleNext s).step = s.step + 1 ∨ (handleNext s).step = s.step := by
  unfold handleNext; split <;> simp

lemma handleBack_step (s : WizardState) : (handleBack s).step = s.step - 1 := rfl

lemma submitForm_step (s : WizardState) : (submitForm s).step = s.step := by
  unfold submitForm; split <;> rfl

lemma mem_validateNonempty {e : FieldError} {s : String} {p : List String}
    {m : String} (h : e ∈ validateNonempty s p m) : e = ⟨p, m⟩ := by
  unfold validateNonempty at h
  split at h
  · exact absurd h (List.not_mem_nil _)
  · simpa using h

lemma questionListErrors_mem_of_get? (validate : Nat → RawQuestion → List FieldError) :
    ∀ (qs : List RawQuestion) (i0 i : Nat) (q : RawQuestion) (b : FieldError),
      qs.get? i = some q → b ∈ validate (i0 + i) q →
      b ∈ questionListErrors validate i0 qs := by
  intro qs
  induction qs with
  | nil => intro i0 i q b h _; simp at h
  | cons hd tl ih =>
    intro i0 i q b hget hb
    cases i with
    | zero =>
      simp only [List.get?] at hget
      cases hget
      exact List.mem_append_left _ (by simpa using hb)
    | succ j =>
      have hget' : tl.get? j = some q := by simpa [List.get?] using hget
      have hb' : b ∈ validate ((i0 + 1) + j) q := by
        rw [show (i0 + 1) + j = i0 + (j + 1) by omega]; exact hb
      exact List.mem_append_right _ (ih (i0 + 1) j q b hget' hb')

lemma editQuestionErrors_getLast {e : FieldError} {i : Nat} {q : RawQuestion}
    (h : e ∈ editQuestionErrors i q) :
    e.path.getLast? = some "text" ∨ e.path.getLast? = some "ideal_answer" := by
  unfold editQuestionErrors at h
  rcases List.mem_append.mp h with h' | h'
  · rw [mem_validateNonempty h']; left; rfl
  · rw [mem_validateNonempty h']; right; rfl

lemma questionListErrors_edit_getLast :
    ∀ (qs : List RawQuestion) (i0 : Nat) (e : FieldError),
      e ∈ questionListErrors editQuestionErrors i0 qs →
      e.path.getLast? = some "text" ∨ e.path.getLast? = some "ideal_answer" := by
  intro qs
  induction qs with
  | nil => intro i0 e h; simp [questionListErrors] at h
  | cons hd tl ih =>
    intro i0 e h
    rw [questionListErrors] at h
    rcases List.mem_append.mp h with h' | h'
    · exact editQuestionErrors_getLast h'
    · exact ih (i0 + 1) e h'

lemma detailsErrors_getLast {f : RawExamForm} {e : FieldError}
    (h : e ∈ detailsErrors f) :
    e.path.getLast? = some "title" ∨ e.path.getLast? = some "subject" ∨
      e.path.getLast? = some "instructions" := by
  unfold detailsErrors at h
  rcases List.mem_append.mp h with h' | h'
  · rcases List.mem_append.mp h' with h'' | h''
    · rw [mem_validateNonempty h'']; left; rfl
    · rw [mem_validateNonempty h'']; right; left; rfl
  · rw [mem_validateNonempty h']; right; right; rfl

lemma toNumber_markValueOfJs (m : Option Int) : (markValueOfJs m).toNumber = m := by
  cases m <;> rfl

/-- C1 (amended): under the creation schema, a question whose `mark` is
the string `"abc"` or the number `0` always produces the issue
`"Mark must be a number and at least 1"` at that question's `mark`
path; the edit schema, by contrast, performs no mark validation — none
of its issues ever identifies a `mark` field. -/
theorem claimC1 :
    (∀ (f : RawExamForm) (i : Nat) (q : RawQuestion),
      f.questions.get? i = some q →
      (q.mark = .str "abc" ∨ q.mark = .num 0) →
      (⟨["questions", toString i, "mark"],
        "Mark must be a number and at least 1"⟩ : FieldError)
        ∈ examFormSchemaErrors f) ∧
    (∀ (f : RawExamForm) (e : FieldError),
      e ∈ editFormSchemaErrors f → e.path.getLast? ≠ some "mark") := by
  constructor
  · intro f i q hget hmark
    have habc : jsStringToNumber "abc" = none := by decide
    have hm : (⟨["questions", toString i, "mark"],
        "Mark must be a number and at least 1"⟩ : FieldError)
        ∈ createMarkErrors i q.mark := by
      rcases hmark with h | h <;>
        simp [createMarkErrors, h, MarkValue.toNumber, habc]
    have hq : (⟨["questions", toString i, "mark"],
        "Mark must be a number and at least 1"⟩ : FieldError)
        ∈ createQuestionErrors i q := by
      unfold createQuestionErrors
      exact List.mem_append_right _ hm
    have hlist := questionListErrors_mem_of_get? createQuestionErrors
      f.questions 0 i q _ hget (by simpa using hq)
    unfold examFormSchemaErrors questionsArrayErrors
    exact List.mem_append_right _ (List.mem_append_right _ hlist)
  · intro f e h
    unfold editFormSchemaErrors questionsArrayErrors at h
    rcases List.mem_append.mp h with h' | h'
    · rcases detailsErrors_getLast h' with h'' | h'' | h'' <;> simp [h'']
    · rcases List.mem_append.mp h' with h'' | h''
      · have : e = questionsMinError := by
          revert h''; split <;> intro h''
          · exact absurd h'' (List.not_mem_nil _)
          · simpa using h''
        rw [this]; simp [questionsMinError]
      · rcases questionListErrors_edit_getLast f.questions 0 e h'' with h3 | h3 <;>
          simp [h3]

/-- Witness for C1 (amended): a concrete creation-form with mark
`"abc"` yields the mark issue at `questions.0.mark`, and a concrete
edit-form issue (empty title) does not identify a mark field. -/
theorem claimC1_witness :
    (⟨["questions", "0", "mark"], "Mark must be a number and at least 1"⟩ : FieldError)
      ∈ examFormSchemaErrors
        ⟨"Algebra", "Math", "Solve all",
          [⟨none, "What is 2+2?", "4", none, .str "abc"⟩]⟩ ∧
    (⟨["title"], "Title is required"⟩ : FieldError).path.getLast? ≠ some "mark" :=
  ⟨claimC1.1 ⟨"Algebra", "Math", "Solve all",
      [⟨none, "What is 2+2?", "4", none, .str "abc"⟩]⟩ 0
      ⟨none, "What is 2+2?", "4", none, .str "abc"⟩ (by decide) (Or.inl rfl),
   claimC1.2 ⟨"", "Math", "Solve all", [⟨none, "Q", "A", none, .num 1⟩]⟩
      ⟨["title"], "Title is required"⟩ (by decide)⟩

/-- Counterexample to C1 as stated: on the edit form's schema,
validating questions whose `mark` is `"abc"` or `0` succeeds (the issue
list is empty and parsing returns a value), instead of failing with a
mark-identifying message. -/
theorem claimC1_counterexample :
    editFormSchemaErrors
      ⟨"Algebra", "Math", "Solve all",
        [⟨some 1, "What is 2+2?", "4", none, .str "abc"⟩]⟩ = [] ∧
    editFormSchemaParse
      ⟨"Algebra", "Math", "Solve all",
        [⟨some 1, "What is 2+2?", "4", none, .str "abc"⟩]⟩ =
      .ok ⟨"Algebra", "Math", "Solve all",
        [⟨some 1, "What is 2+2?", "4", none, none⟩]⟩ ∧
    editFormSchemaErrors
      ⟨"Algebra", "Math", "Solve all",
        [⟨some 1, "What is 2+2?", "4", none, .num 0⟩]⟩ = [] ∧
    editFormSchemaParse
      ⟨"Algebra", "Math", "Solve all",
        [⟨some 1, "What is 2+2?", "4", none, .num 0⟩]⟩ =
      .ok ⟨"Algebra", "Math", "Solve all",
        [⟨some 1, "What is 2+2?", "4", none, some 0⟩]⟩ := by
  exact ⟨by decide, rfl, by decide, rfl⟩

/-- C3: at step 2 with an empty questions array, `handleNext` is
rejected by the schema's `.min(1)` check — the at-least-one-question
issue is raised — and the step stays 2; the field-array `remove` itself
is nonetheless allowed to empty the array. -/
theorem claimC3 (s : WizardState) (hstep : s.step = 2)
    (hq : s.form.questions = []) :
    (handleNext s).step = 2 ∧
    questionsMinError ∈ (handleNext s).errors ∧
    (∀ q : RawQuestion, removeQuestion 0 [q] = []) := by
  have hmem : questionsMinError ∈ handleNextErrors s := by
    simp [handleNextErrors, hstep, examFormSchemaErrors, questionsArrayErrors, hq,
      questionListErrors]
  have hne : handleNextErrors s ≠ [] := by
    intro h0; rw [h0] at hmem; exact absurd hmem (List.not_mem_nil _)
  rw [handleNext_of_invalid hne]
  exact ⟨hstep, hmem, fun q => rfl⟩

/-- Witness for C3 at a concrete step-2 state with no questions. -/
theorem claimC3_witness :
    (handleNext ⟨2, ⟨"T", "S", "I", []⟩, [], false⟩).step = 2 ∧
    questionsMinError ∈ (handleNext ⟨2, ⟨"T", "S", "I", []⟩, [], false⟩).errors :=
  ⟨(claimC3 ⟨2, ⟨"T", "S", "I", []⟩, [], false⟩ rfl rfl).1,
   (claimC3 ⟨2, ⟨"T", "S", "I", []⟩, [], false⟩ rfl rfl).2.1⟩

/-- C4: at step 1 with an empty title (resp. subject), `handleNext`
fails validation: the step stays 1, the form values are untouched, and
the field-level issue of the empty field is surfaced. -/
theorem claimC4 (s : WizardState) (hstep : s.step = 1) :
    (s.form.title = "" →
      (handleNext s).step = 1 ∧ (handleNext s).form = s.form ∧
      (⟨["title"], "Title is required"⟩ : FieldError) ∈ (handleNext s).errors) ∧
    (s.form.subject = "" →
      (handleNext s).step = 1 ∧ (handleNext s).form = s.form ∧
      (⟨["subject"], "Subject is required"⟩ : FieldError) ∈ (handleNext s).errors) := by
  constructor
  · intro htitle
    have hmem : (⟨["title"], "Title is required"⟩ : FieldError) ∈ handleNextErrors s := by
      simp [handleNextErrors, hstep, detailsErrors, validateNonempty, htitle]
    have hne : handleNextErrors s ≠ [] := by
      intro h0; rw [h0] at hmem; exact absurd hmem (List.not_mem_nil _)
    rw [handleNext_of_invalid hne]
    exact ⟨hstep, rfl, hmem⟩
  · intro hsubject
    have hmem : (⟨["subject"], "Subject is required"⟩ : FieldError) ∈ handleNextErrors s := by
      simp [handleNextErrors, hstep, detailsErrors, validateNonempty, hsubject]
    have hne : handleNextErrors s ≠ [] := by
      intro h0; rw [h0] at hmem; exact absurd hmem (List.not_mem_nil _)
    rw [handleNext_of_invalid hne]
    exact ⟨hstep, rfl, hmem⟩

/-- Witness for C4 at a concrete step-1 state with an empty title. -/
theorem claimC4_witness :
    (handleNext ⟨1, ⟨"", "Math", "Inst", []⟩, [], false⟩).step = 1 ∧
    (⟨["title"], "Title is required"⟩ : FieldError)
      ∈ (handleNext ⟨1, ⟨"", "Math", "Inst", []⟩, [], false⟩).errors :=
  ⟨((claimC4 ⟨1, ⟨"", "Math", "Inst", []⟩, [], false⟩ rfl).1 rfl).1,
   ((claimC4 ⟨1, ⟨"", "Math", "Inst", []⟩, [], false⟩ rfl).1 rfl).2.2⟩

/-- C5: every state reachable from the wizard's initial state through
the user-invokable transitions has `step ∈ {1, 2, 3}`; every transition
moves the step by at most one (a successful advance by exactly `+1`, a
retreat by exactly `-1`, a failed advance or a submit by `0`) — no
transition skips a step. -/
theorem claimC5 :
    (∀ s, WReachable s → 1 ≤ s.step ∧ s.step ≤ 3) ∧
    (∀ s s', WStep s s' →
      s'.step = s.step + 1 ∨ s'.step + 1 = s.step ∨ s'.step = s.step) ∧
    (∀ s, 1 < s.step → (handleBack s).step + 1 = s.step) ∧
    (∀ s, handleNextErrors s = [] → (handleNext s).step = s.step + 1) := by
  refine ⟨?_, ?_, ?_, ?_⟩
  · intro s h
    induction h with
    | refl => exact ⟨by decide, by decide⟩
    | tail _ hbc ih =>
      cases hbc with
      | next h3 => rcases handleNext_step _ with h | h <;> rw [h] <;> omega
      | back h1 => rw [handleBack_step]; omega
      | submit h3 => rw [submitForm_step]; omega
  · intro s s' hstep
    cases hstep with
    | next h3 =>
      rcases handleNext_step s with h | h
      · exact Or.inl h
      · exact Or.inr (Or.inr h)
    | back h1 => right; left; rw [handleBack_step]; omega
    | submit h3 => right; right; exact submitForm_step s
  · intro s h1; rw [handleBack_step]; omega
  · intro s h; simp [handleNext, h]

/-- Witness for C5: the initial state is reachable and within bounds,
and one concrete `Next` transition from it moves the step by at most
one. -/
theorem claimC5_witness :
    (1 ≤ initialWizardState.step ∧ initialWizardState.step ≤ 3) ∧
    ((handleNext initialWizardState).step = initialWizardState.step + 1 ∨
      (handleNext initialWizardState).step + 1 = initialWizardState.step ∨
      (handleNext initialWizardState).step = initialWizardState.step) :=
  ⟨claimC5.1 initialWizardState Relation.ReflTransGen.refl,
   claimC5.2.1 initialWizardState (handleNext initialWizardState)
     (WStep.next initialWizardState (by decide))⟩

/-- C6: a fetched exam loaded unmodified into the edit form and
submitted produces an update payload whose route id is the exam's id and
whose `title`, `subject`, `instructions` and questions (with their
`id`, `text`, `ideal_answer`, `instructions`, `mark`) equal the fetched
exam's fields — no field differences are introduced. -/
theorem claimC6 (e : Exam)
    (h : editFormSchemaErrors (examToRawForm e) = []) :
    examEditSubmit e =
      some ⟨e.id, ⟨e.title, e.subject, e.instructions,
        e.questions.map questionToForm⟩⟩ := by
  unfold examEditSubmit editFormSchemaParse
  rw [h]
  simp only [examToRawForm, List.map_map]
  congr 1
  refine congrArg _ ?_
  refine congrArg _ ?_
  exact List.map_congr_left fun q _ => by
    simp [editQuestionParse, questionToRaw, questionToForm, toNumber_markValueOfJs]

/-- Witness for C6 at a concrete fetched exam. -/
theorem claimC6_witness :
    examEditSubmit
      ⟨7, "Algebra", "Math", "Solve all",
        [⟨some 1, "What is 2+2?", "4", none, some 5, some "t0", some "t1"⟩],
        "t0", "t1"⟩ =
      some ⟨7, ⟨"Algebra", "Math", "Solve all",
        [⟨some 1, "What is 2+2?", "4", none, some 5⟩]⟩⟩ :=
  claimC6
    ⟨7, "Algebra", "Math", "Solve all",
      [⟨some 1, "What is 2+2?", "4", none, some 5, some "t0", some "t1"⟩],
      "t0", "t1"⟩ (by decide)

/-- C2: every exam mutation (create, update, delete) declares
invalidation tags covering the list cache — `createExam` via the bare
`'Exam'` type tag, `updateExam` and `deleteExam` via the explicit
`{type: 'Exam', id: 'LIST'}` tag — and `updateExam` additionally covers
the single-item entry `{type: 'Exam', id}` of the mutated id; hence any
`getExams` result (which always carries the list tag) refetches after
each mutation, and a `getExamById i` result refetches after an update of
`i`. -/
theorem claimC2 : ∀ (i : Nat) (result : Option (List Exam)),
    (∃ d ∈ createExam_invalidatesTags, tagMatches d examListTag = true) ∧
    (∃ d ∈ updateExam_invalidatesTags i, tagMatches d examListTag = true) ∧
    (∃ d ∈ updateExam_invalidatesTags i, tagMatches d ⟨"Exam", .num i⟩ = true) ∧
    (∃ d ∈ deleteExam_invalidatesTags i, tagMatches d examListTag = true) ∧
    wouldRefetch createExam_invalidatesTags (getExams_providesTags result) = true ∧
    wouldRefetch (updateExam_invalidatesTags i) (getExams_providesTags result) = true ∧
    wouldRefetch (deleteExam_invalidatesTags i) (getExams_providesTags result) = true ∧
    wouldRefetch (updateExam_invalidatesTags i) (getExamById_providesTags i) = true := by
  intro i result
  refine ⟨⟨.plain "Exam", by simp [createExam_invalidatesTags], by simp [tagMatches, examListTag]⟩,
    ⟨.full examListTag, by simp [updateExam_invalidatesTags], by simp [tagMatches, examListTag]⟩,
    ⟨.full ⟨"Exam", .num i⟩, by simp [updateExam_invalidatesTags], by simp [tagMatches]⟩,
    ⟨.full examListTag, by simp [deleteExam_invalidatesTags], by simp [tagMatches, examListTag]⟩,
    ?_, ?_, ?_, ?_⟩ <;>
    cases result <;>
    simp [wouldRefetch, getExams_providesTags, getExamById_providesTags, examListTag,
      createExam_invalidatesTags, updateExam_invalidatesTags, deleteExam_invalidatesTags,
      tagMatches]

/-- C10: `deleteExam`'s declared invalidation is exactly the list tag;
no declared entry matches the single-item entry `{type: 'Exam', id}` of
the deleted exam, so a cached `getExamById id` result is not refetched
by the delete. -/
theorem claimC10 : ∀ i : Nat,
    deleteExam_invalidatesTags i = [.full examListTag] ∧
    (∀ d ∈ deleteExam_invalidatesTags i, tagMatches d ⟨"Exam", .num i⟩ = false) ∧
    wouldRefetch (deleteExam_invalidatesTags i) (getExamById_providesTags i) = false := by
  intro i
  refine ⟨rfl, ?_, ?_⟩ <;>
    simp [deleteExam_invalidatesTags, getExamById_providesTags, wouldRefetch,
      tagMatches, examListTag]

/-- Witness for C10 at the concrete id 42: the declared delete
invalidation does not match the single-item tag of exam 42 and does not
refetch a cached `getExamById 42` result. -/
theorem claimC10_witness :
    tagMatches (.full examListTag) ⟨"Exam", .num 42⟩ = false ∧
    wouldRefetch (deleteExam_invalidatesTags 42) (getExamById_providesTags 42) = false :=
  ⟨(claimC10 42).2.1 (.full examListTag) (by decide), (claimC10 42).2.2⟩

/-- C7: a file whose MIME type is not `application/pdf` is rejected
client-side by `handleFileProcessing`: the selection is cleared, the
error message asking for a PDF is set, and no request is issued. -/
theorem claimC7 (f : JFile) (s : SubmissionState)
    (h : f.type ≠ "application/pdf") :
    handleFileProcessing (some f) s =
      ({ s with selectedFile := none
                message := some ⟨"error", "Please upload a PDF file."⟩ }, []) ∧
    uploadPdf_request ∉ (handleFileProcessing (some f) s).2 := by
  constructor
  · simp [handleFileProcessing, h]
  · simp [handleFileProcessing, h]

/-- Witness for C7 at the concrete non-PDF file `notes.txt` of type
`text/plain`. -/
theorem claimC7_witness :
    handleFileProcessing (some ⟨"notes.txt", "text/plain"⟩) ⟨none, none⟩ =
      (⟨none, some ⟨"error", "Please upload a PDF file."⟩⟩, []) :=
  (claimC7 ⟨"notes.txt", "text/plain"⟩ ⟨none, none⟩ (by decide)).1

/-- C9: `handleSubmit` of the submission page issues no network request
(in particular never the `uploadPdf` request), leaves the selection
unchanged immediately, and — exactly when a file is selected — schedules
a 2000 ms callback that clears the selection. -/
theorem claimC9 : ∀ s : SubmissionState,
    (handleSubmit s).2.1 = [] ∧
    uploadPdf_request ∉ (handleSubmit s).2.1 ∧
    (handleSubmit s).1.selectedFile = s.selectedFile ∧
    ((handleSubmit s).2.2).isSome = s.selectedFile.isSome ∧
    ((handleSubmit s).2.2).all (fun a => a.delayMs == 2000 && a.clearsSelection) = true ∧
    (∀ a, (handleSubmit s).2.2 = some a →
      (runDelayed a (handleSubmit s).1).selectedFile = none) := by
  intro s
  cases h : s.selectedFile <;> simp [handleSubmit, h, runDelayed]

/-- Witness for C9 at a state with a selected PDF. -/
theorem claimC9_witness :
    (handleSubmit ⟨some ⟨"a.pdf", "application/pdf"⟩, none⟩).2.1 = [] ∧
    (runDelayed ⟨2000, ⟨"success", "\"a.pdf\" has been uploaded successfully."⟩, true⟩
      (handleSubmit ⟨some ⟨"a.pdf", "application/pdf"⟩, none⟩).1).selectedFile = none :=
  ⟨(claimC9 ⟨some ⟨"a.pdf", "application/pdf"⟩, none⟩).1,
   (claimC9 ⟨some ⟨"a.pdf", "application/pdf"⟩, none⟩).2.2.2.2.2
     ⟨2000, ⟨"success", "\"a.pdf\" has been uploaded successfully."⟩, true⟩ rfl⟩

/-- C8: on both the detail page and the edit page, a route parameter
whose `Number` coercion is NaN or `0` makes the `getExamById` query be
skipped; any other integer coercion issues the query with that id. -/
theorem claimC8 : ∀ s : String,
    ((jsStringToNumber s = none ∨ jsStringToNumber s = some 0) →
      examDetailPage_query s = none ∧ editExamPage_query s = none) ∧
    (∀ n : Int, jsStringToNumber s = some n → n ≠ 0 →
      examDetailPage_query s = some (getExamById_request n) ∧
      editExamPage_query s = some (getExamById_request n)) := by
  intro s
  constructor
  · rintro (h | h) <;> simp [examDetailPage_query, editExamPage_query, h]
  · intro n h hn
    simp [examDetailPage_query, editExamPage_query, h, hn]

/-- Witness for C8: `"abc"` coerces to NaN and is skipped, `"0"` is
skipped, `"5"` issues the query for id 5, on both pages. -/
theorem claimC8_witness :
    (examDetailPage_query "abc" = none ∧ editExamPage_query "abc" = none) ∧
    (examDetailPage_query "0" = none ∧ editExamPage_query "0" = none) ∧
    (examDetailPage_query "5" = some (getExamById_request 5) ∧
      editExamPage_query "5" = some (getExamById_request 5)) :=
  ⟨(claimC8 "abc").1 (Or.inl (by decide)),
   (claimC8 "0").1 (Or.inr (by decide)),
   (claimC8 "5").2 5 (by decide) (by decide)⟩

end ExamAI
